import Mathlib

/-
Shallow embedding of pyPS4Controller2.0 (src/pyPS4Controller/controller.py).

The repository has two source files: controller.py (the engine) and
example.py (usage glue).  The injected event mapping
(event_mapping.Mapping3Bh2b) is not part of the repository sources; the
engine receives it as a constructor parameter (`event_definition`) and only
queries boolean predicates plus `.value` on the object it builds per record.
We therefore model a semantic event as the tuple of those predicate answers
together with the value, and model the classification step as an arbitrary
function parameter `classify`, exactly the seam the code exposes.
-/

set_option maxHeartbeats 3200000

namespace PS4

/-- ControllerState from controller.py lines 8-39: the mutable snapshot.
Field names and types follow `__init__` exactly (bool flags, int for the
analog triggers L2/R2 and the four stick axes). -/
structure ControllerState where
  x_button : Bool
  triangle_button : Bool
  circle_button : Bool
  square_button : Bool
  L1_button : Bool
  L2_button : Int
  L3_button : Bool
  R1_button : Bool
  R2_button : Int
  R3_button : Bool
  up_arrow : Bool
  down_arrow : Bool
  left_arrow : Bool
  right_arrow : Bool
  L3_x_axis : Int
  L3_y_axis : Int
  R3_x_axis : Int
  R3_y_axis : Int
  share_button : Bool
  options_button : Bool
  playstation_button : Bool
deriving DecidableEq

/-- Initial snapshot, the defaults assigned in `ControllerState.__init__`:
all flags false, triggers at the -32767 rest sentinel, axes at 0. -/
def ControllerState.init : ControllerState where
  x_button := false
  triangle_button := false
  circle_button := false
  square_button := false
  L1_button := false
  L2_button := -32767
  L3_button := false
  R1_button := false
  R2_button := -32767
  R3_button := false
  up_arrow := false
  down_arrow := false
  left_arrow := false
  right_arrow := false
  L3_x_axis := 0
  L3_y_axis := 0
  R3_x_axis := 0
  R3_y_axis := 0
  share_button := false
  options_button := false
  playstation_button := false

/-- A classified event, characterised by the answers of every predicate
`_handle_event` queries on the object built by the injected
`event_definition`, plus `event.value`.  One field per predicate, in the
order the elif chain of controller.py lines 188-318 consults them; all
default to false so that a concrete event is written by naming the
predicates that hold. -/
structure Event where
  R3_event : Bool := false
  R3_y_at_rest : Bool := false
  R3_x_at_rest : Bool := false
  R3_right : Bool := false
  R3_left : Bool := false
  R3_up : Bool := false
  R3_down : Bool := false
  L3_event : Bool := false
  L3_y_at_rest : Bool := false
  L3_x_at_rest : Bool := false
  L3_up : Bool := false
  L3_down : Bool := false
  L3_left : Bool := false
  L3_right : Bool := false
  circle_pressed : Bool := false
  circle_released : Bool := false
  x_pressed : Bool := false
  x_released : Bool := false
  triangle_pressed : Bool := false
  triangle_released : Bool := false
  square_pressed : Bool := false
  square_released : Bool := false
  L1_pressed : Bool := false
  L1_released : Bool := false
  L2_pressed : Bool := false
  L2_released : Bool := false
  R1_pressed : Bool := false
  R1_released : Bool := false
  R2_pressed : Bool := false
  R2_released : Bool := false
  options_pressed : Bool := false
  options_released : Bool := false
  left_right_arrow_released : Bool := false
  up_down_arrow_released : Bool := false
  left_arrow_pressed : Bool := false
  right_arrow_pressed : Bool := false
  up_arrow_pressed : Bool := false
  down_arrow_pressed : Bool := false
  playstation_button_pressed : Bool := false
  playstation_button_released : Bool := false
  share_pressed : Bool := false
  share_released : Bool := false
  R3_pressed : Bool := false
  R3_released : Bool := false
  L3_pressed : Bool := false
  L3_released : Bool := false
  value : Int := 0
deriving DecidableEq

/-- Controller._handle_event, controller.py lines 174-318: one pass over the
elif chain, mirroring branch order exactly.  The mutable
`self.state` / `self.event_history.append` effects become a returned pair:
the new snapshot and the list of labels appended by this event (the source
appends at most one). -/
def handle_event (event : Event) (state : ControllerState) :
    ControllerState × List String :=
  if event.R3_event then
    (if event.R3_y_at_rest then { state with R3_y_axis := 0 }
     else if event.R3_x_at_rest then { state with R3_x_axis := 0 }
     else if event.R3_right then { state with R3_x_axis := event.value }
     else if event.R3_left then { state with R3_x_axis := event.value }
     else if event.R3_up then { state with R3_y_axis := event.value }
     else if event.R3_down then { state with R3_y_axis := event.value }
     else state, ["right_joystick"])
  else if event.L3_event then
    (if event.L3_y_at_rest then { state with L3_y_axis := 0 }
     else if event.L3_x_at_rest then { state with L3_x_axis := 0 }
     else if event.L3_up then { state with L3_y_axis := event.value }
     else if event.L3_down then { state with L3_y_axis := event.value }
     else if event.L3_left then { state with L3_x_axis := event.value }
     else if event.L3_right then { state with L3_x_axis := event.value }
     else state, ["left_joystick"])
  else if event.circle_pressed then ({ state with circle_button := true }, ["circle"])
  else if event.circle_released then ({ state with circle_button := false }, [])
  else if event.x_pressed then ({ state with x_button := true }, ["x"])
  else if event.x_released then ({ state with x_button := false }, [])
  else if event.triangle_pressed then ({ state with triangle_button := true }, ["triangle"])
  else if event.triangle_released then ({ state with triangle_button := false }, [])
  else if event.square_pressed then ({ state with square_button := true }, ["square"])
  else if event.square_released then ({ state with square_button := false }, [])
  else if event.L1_pressed then ({ state with L1_button := true }, ["L1"])
  else if event.L1_released then ({ state with L1_button := false }, [])
  else if event.L2_pressed then ({ state with L2_button := event.value }, ["L2"])
  else if event.L2_released then ({ state with L2_button := -32767 }, [])
  else if event.R1_pressed then ({ state with R1_button := true }, ["R1"])
  else if event.R1_released then ({ state with R1_button := false }, [])
  else if event.R2_pressed then ({ state with R2_button := event.value }, ["R2"])
  else if event.R2_released then ({ state with R2_button := -32767 }, [])
  else if event.options_pressed then ({ state with options_button := true }, ["options"])
  else if event.options_released then ({ state with options_button := false }, [])
  else if event.left_right_arrow_released then
    ({ state with left_arrow := false, right_arrow := false }, [])
  else if event.up_down_arrow_released then
    ({ state with up_arrow := false, down_arrow := false }, [])
  else if event.left_arrow_pressed then ({ state with left_arrow := true }, ["left"])
  else if event.right_arrow_pressed then ({ state with right_arrow := true }, ["right"])
  else if event.up_arrow_pressed then ({ state with up_arrow := true }, ["up"])
  else if event.down_arrow_pressed then ({ state with down_arrow := true }, ["down"])
  else if event.playstation_button_pressed then
    ({ state with playstation_button := true }, ["ps"])
  else if event.playstation_button_released then
    ({ state with playstation_button := false }, [])
  else if event.share_pressed then ({ state with share_button := true }, ["share"])
  else if event.share_released then ({ state with share_button := false }, [])
  else if event.R3_pressed then ({ state with R3_button := true }, ["R3"])
  else if event.R3_released then ({ state with R3_button := false }, [])
  else if event.L3_pressed then ({ state with L3_button := true }, ["L3"])
  else if event.L3_released then ({ state with L3_button := false }, [])
  else (state, [])

/-- Controller.listen over an already-classified record stream: the loop of
controller.py lines 157-163 processes events in order, threading the
snapshot and concatenating the per-event history appends. -/
def runPipeline : List Event → ControllerState → ControllerState × List String
  | [], s => (s, [])
  | e :: es, s =>
    let r := handle_event e s
    let rest := runPipeline es r.1
    (rest.1, r.2 ++ rest.2)

/-- struct.calcsize of the default layout "3Bh2b": three unsigned bytes,
one native-alignment pad byte, a 2-byte short, two signed bytes = 8. -/
def event_size : Nat := 8

/-- Default `timeout` argument of Controller.listen / start_listening
(controller.py lines 96 and 133). -/
def defaultTimeout : Nat := 30

/-- Sign extension of one unsigned byte (struct format "b"). -/
def sbyte (b : Int) : Int := if b < 128 then b else b - 256

/-- Little-endian signed 16-bit from two bytes (struct format "h" on the
native little-endian layout). -/
def int16le (lo hi : Int) : Int :=
  let v := lo + 256 * hi
  if v < 32768 then v else v - 65536

/-- The four logical fields `_unpack_event` hands to `_handle_event`
(controller.py lines 169-172): struct.unpack("3Bh2b", event) yields the
6-tuple (B, B, B, h, b, b); `_unpack_event` returns
(tuple[3:], tuple[2], tuple[1], tuple[0]), i.e. overflow is the trailing
triple, value the third byte, button_type the second, button_id the first. -/
structure RawFields where
  overflow : Int × Int × Int
  value : Int
  button_type : Int
  button_id : Int
deriving DecidableEq

/-- Controller._unpack_event on one full 8-byte record (bytes as 0..255
integers; only ever applied to records whose length equals event_size —
struct.unpack raises on any other length, modelled in the loop below). -/
def unpack_event (bytes : List Int) : RawFields where
  overflow := (int16le (bytes.getD 4 0) (bytes.getD 5 0),
               sbyte (bytes.getD 6 0), sbyte (bytes.getD 7 0))
  value := bytes.getD 2 0
  button_type := bytes.getD 1 0
  button_id := bytes.getD 0 0

/-- One step of the pipeline trace: the loop body applies the classified
event (`_handle_event`) and then signals the update queue
(`_state_queue.put(True)`), in that order. -/
inductive Action where
  | applied (e : Event)
  | signaled
deriving DecidableEq

/-- How Controller.listen terminated. `notConnected`: wait_for_interface
exhausted its attempts, the device file was never opened.  `cleanEOF`: a
read returned zero bytes (falsy), the while loop exited normally.
`unpackError`: a read returned a nonzero byte count different from
event_size, so struct.unpack raised struct.error, which listen does not
catch (only KeyboardInterrupt is caught) and which propagates out of the
loop. -/
inductive ListenExit where
  | notConnected
  | cleanEOF
  | unpackError
deriving DecidableEq

/-- Observable outcome of one Controller.listen run: final snapshot, final
event_history, number of queue signals, the is_connected flag, whether the
device file was opened, the apply/signal trace, and how the run ended. -/
structure ListenResult where
  state : ControllerState
  history : List String
  puts : Nat
  is_connected : Bool
  opened : Bool
  trace : List Action
  exit : ListenExit
deriving DecidableEq

/-- wait_for_interface's for-loop (controller.py lines 144-151), polling
attempts i, i+1, ... while n attempts remain: `existsAt k` is whether
`path.exists(self.interface)` holds on the k-th poll. -/
def waitForInterfaceFrom (existsAt : Nat → Bool) : Nat → Nat → Bool
  | _, 0 => false
  | i, n + 1 => if existsAt i then true else waitForInterfaceFrom existsAt (i + 1) n

/-- wait_for_interface (controller.py lines 144-151): true iff some of the
`timeout` polls, starting from poll 0, sees the path. -/
def waitForInterface (existsAt : Nat → Bool) (timeout : Nat) : Bool :=
  waitForInterfaceFrom existsAt 0 timeout

/-- The read/process loop of Controller.listen (lines 156-163), over the
sequence of byte chunks successive `_file.read(event_size)` calls return
(an exhausted list means every further read returns zero bytes).  The stop
flag is never set during the run (no stop_listening call).  An empty chunk
is falsy: the while loop exits cleanly.  A nonzero chunk whose length is
not event_size makes struct.unpack raise, which propagates.  A full chunk
is unpacked, classified by the injected event_definition (`classify`),
handled, and then the queue is signalled once. -/
def listenLoop (classify : RawFields → Event) :
    List (List Int) → ControllerState → List String → Nat → List Action → ListenResult
  | [], st, hist, puts, tr =>
    { state := st, history := hist, puts := puts, is_connected := true,
      opened := true, trace := tr.reverse, exit := ListenExit.cleanEOF }
  | c :: rest, st, hist, puts, tr =>
    if c.length = 0 then
      { state := st, history := hist, puts := puts, is_connected := true,
        opened := true, trace := tr.reverse, exit := ListenExit.cleanEOF }
    else if c.length ≠ event_size then
      { state := st, history := hist, puts := puts, is_connected := true,
        opened := true, trace := tr.reverse, exit := ListenExit.unpackError }
    else
      let ev := classify (unpack_event c)
      let r := handle_event ev st
      listenLoop classify rest r.1 (hist ++ r.2) (puts + 1)
        (Action.signaled :: Action.applied ev :: tr)

/-- Controller.listen (controller.py lines 133-167) on a fresh controller:
run the liveness gate; on failure flip is_connected false and return
without opening the device; on success is_connected is true and the read
loop runs over the stream's chunks. -/
def listen (classify : RawFields → Event) (existsAt : Nat → Bool) (timeout : Nat)
    (chunks : List (List Int)) : ListenResult :=
  if waitForInterface existsAt timeout then
    listenLoop classify chunks ControllerState.init [] 0 []
  else
    { state := ControllerState.init, history := [], puts := 0, is_connected := false,
      opened := false, trace := [], exit := ListenExit.notConnected }

/-- The classified events a chunk stream feeds to `_handle_event`. -/
def pipelineEvents (classify : RawFields → Event) (chunks : List (List Int)) : List Event :=
  chunks.map (fun c => classify (unpack_event c))

/-- Labels of §4.4 category 3, the digital button pressed branches. -/
def buttonLabels : List String :=
  ["circle", "x", "triangle", "square", "L1", "R1", "options", "ps", "share", "R3", "L3"]

/-- The five dispatch categories of §4.4 in order: right stick, left stick,
digital buttons, triggers, directional pad, each with the labels its
branches append. -/
def categories : List (List String) :=
  [["right_joystick"], ["left_joystick"], buttonLabels, ["L2", "R2"],
   ["left", "right", "up", "down"]]

/-- Number of §4.4 categories containing a given label. -/
def categoryCount (l : String) : Nat :=
  (categories.filter (fun c => l ∈ c)).length

/-- Number of snapshot fields on which two snapshots differ. -/
def diffCount (s t : ControllerState) : Nat :=
  (if s.x_button = t.x_button then 0 else 1) +
  (if s.triangle_button = t.triangle_button then 0 else 1) +
  (if s.circle_button = t.circle_button then 0 else 1) +
  (if s.square_button = t.square_button then 0 else 1) +
  (if s.L1_button = t.L1_button then 0 else 1) +
  (if s.L2_button = t.L2_button then 0 else 1) +
  (if s.L3_button = t.L3_button then 0 else 1) +
  (if s.R1_button = t.R1_button then 0 else 1) +
  (if s.R2_button = t.R2_button then 0 else 1) +
  (if s.R3_button = t.R3_button then 0 else 1) +
  (if s.up_arrow = t.up_arrow then 0 else 1) +
  (if s.down_arrow = t.down_arrow then 0 else 1) +
  (if s.left_arrow = t.left_arrow then 0 else 1) +
  (if s.right_arrow = t.right_arrow then 0 else 1) +
  (if s.L3_x_axis = t.L3_x_axis then 0 else 1) +
  (if s.L3_y_axis = t.L3_y_axis then 0 else 1) +
  (if s.R3_x_axis = t.R3_x_axis then 0 else 1) +
  (if s.R3_y_axis = t.R3_y_axis then 0 else 1) +
  (if s.share_button = t.share_button then 0 else 1) +
  (if s.options_button = t.options_button then 0 else 1) +
  (if s.playstation_button = t.playstation_button then 0 else 1)

/-- Kind of branch an event matches in the elif chain: a stick branch
(appends its joystick label unconditionally), a pressed-type branch
(appends a label and writes a field), or a released-type branch (writes
fields, appends nothing). -/
inductive BranchKind where
  | stick
  | press
  | release
deriving DecidableEq

/-- Tagged-variant view of the elif chain: one constructor per distinct
branch outcome (branches writing the same field with the same data share a
constructor), used only to organise case analysis; `handle_event` stays
the authoritative translation and `decodeStep_spec` below ties them
together. -/
inductive SemStep where
  | r3YRest
  | r3XRest
  | r3XMove (v : Int)
  | r3YMove (v : Int)
  | r3NoSub
  | l3YRest
  | l3XRest
  | l3YMove (v : Int)
  | l3XMove (v : Int)
  | l3NoSub
  | circlePress
  | circleRelease
  | xPress
  | xRelease
  | trianglePress
  | triangleRelease
  | squarePress
  | squareRelease
  | l1Press
  | l1Release
  | l2Press (v : Int)
  | l2Release
  | r1Press
  | r1Release
  | r2Press (v : Int)
  | r2Release
  | optionsPress
  | optionsRelease
  | lrRelease
  | udRelease
  | leftPress
  | rightPress
  | upPress
  | downPress
  | psPress
  | psRelease
  | sharePress
  | shareRelease
  | r3Press
  | r3Release
  | l3Press
  | l3Release
  | unrecognized
deriving DecidableEq

/-- Effect of one branch outcome on the snapshot plus the label it
appends. -/
def applyStep : SemStep → ControllerState → ControllerState × List String
  | SemStep.r3YRest, s => ({ s with R3_y_axis := 0 }, ["right_joystick"])
  | SemStep.r3XRest, s => ({ s with R3_x_axis := 0 }, ["right_joystick"])
  | SemStep.r3XMove v, s => ({ s with R3_x_axis := v }, ["right_joystick"])
  | SemStep.r3YMove v, s => ({ s with R3_y_axis := v }, ["right_joystick"])
  | SemStep.r3NoSub, s => (s, ["right_joystick"])
  | SemStep.l3YRest, s => ({ s with L3_y_axis := 0 }, ["left_joystick"])
  | SemStep.l3XRest, s => ({ s with L3_x_axis := 0 }, ["left_joystick"])
  | SemStep.l3YMove v, s => ({ s with L3_y_axis := v }, ["left_joystick"])
  | SemStep.l3XMove v, s => ({ s with L3_x_axis := v }, ["left_joystick"])
  | SemStep.l3NoSub, s => (s, ["left_joystick"])
  | SemStep.circlePress, s => ({ s with circle_button := true }, ["circle"])
  | SemStep.circleRelease, s => ({ s with circle_button := false }, [])
  | SemStep.xPress, s => ({ s with x_button := true }, ["x"])
  | SemStep.xRelease, s => ({ s with x_button := false }, [])
  | SemStep.trianglePress, s => ({ s with triangle_button := true }, ["triangle"])
  | SemStep.triangleRelease, s => ({ s with triangle_button := false }, [])
  | SemStep.squarePress, s => ({ s with square_button := true }, ["square"])
  | SemStep.squareRelease, s => ({ s with square_button := false }, [])
  | SemStep.l1Press, s => ({ s with L1_button := true }, ["L1"])
  | SemStep.l1Release, s => ({ s with L1_button := false }, [])
  | SemStep.l2Press v, s => ({ s with L2_button := v }, ["L2"])
  | SemStep.l2Release, s => ({ s with L2_button := -32767 }, [])
  | SemStep.r1Press, s => ({ s with R1_button := true }, ["R1"])
  | SemStep.r1Release, s => ({ s with R1_button := false }, [])
  | SemStep.r2Press v, s => ({ s with R2_button := v }, ["R2"])
  | SemStep.r2Release, s => ({ s with R2_button := -32767 }, [])
  | SemStep.optionsPress, s => ({ s with options_button := true }, ["options"])
  | SemStep.optionsRelease, s => ({ s with options_button := false }, [])
  | SemStep.lrRelease, s => ({ s with left_arrow := false, right_arrow := false }, [])
  | SemStep.udRelease, s => ({ s with up_arrow := false, down_arrow := false }, [])
  | SemStep.leftPress, s => ({ s with left_arrow := true }, ["left"])
  | SemStep.rightPress, s => ({ s with right_arrow := true }, ["right"])
  | SemStep.upPress, s => ({ s with up_arrow := true }, ["up"])
  | SemStep.downPress, s => ({ s with down_arrow := true }, ["down"])
  | SemStep.psPress, s => ({ s with playstation_button := true }, ["ps"])
  | SemStep.psRelease, s => ({ s with playstation_button := false }, [])
  | SemStep.sharePress, s => ({ s with share_button := true }, ["share"])
  | SemStep.shareRelease, s => ({ s with share_button := false }, [])
  | SemStep.r3Press, s => ({ s with R3_button := true }, ["R3"])
  | SemStep.r3Release, s => ({ s with R3_button := false }, [])
  | SemStep.l3Press, s => ({ s with L3_button := true }, ["L3"])
  | SemStep.l3Release, s => ({ s with L3_button := false }, [])
  | SemStep.unrecognized, s => (s, [])

/-- Which branch outcome the elif chain reaches for an event, in the
chain's exact order. -/
def decodeStep (e : Event) : SemStep :=
  if e.R3_event then
    if e.R3_y_at_rest then SemStep.r3YRest
    else if e.R3_x_at_rest then SemStep.r3XRest
    else if e.R3_right then SemStep.r3XMove e.value
    else if e.R3_left then SemStep.r3XMove e.value
    else if e.R3_up then SemStep.r3YMove e.value
    else if e.R3_down then SemStep.r3YMove e.value
    else SemStep.r3NoSub
  else if e.L3_event then
    if e.L3_y_at_rest then SemStep.l3YRest
    else if e.L3_x_at_rest then SemStep.l3XRest
    else if e.L3_up then SemStep.l3YMove e.value
    else if e.L3_down then SemStep.l3YMove e.value
    else if e.L3_left then SemStep.l3XMove e.value
    else if e.L3_right then SemStep.l3XMove e.value
    else SemStep.l3NoSub
  else if e.circle_pressed then SemStep.circlePress
  else if e.circle_released then SemStep.circleRelease
  else if e.x_pressed then SemStep.xPress
  else if e.x_released then SemStep.xRelease
  else if e.triangle_pressed then SemStep.trianglePress
  else if e.triangle_released then SemStep.triangleRelease
  else if e.square_pressed then SemStep.squarePress
  else if e.square_released then SemStep.squareRelease
  else if e.L1_pressed then SemStep.l1Press
  else if e.L1_released then SemStep.l1Release
  else if e.L2_pressed then SemStep.l2Press e.value
  else if e.L2_released then SemStep.l2Release
  else if e.R1_pressed then SemStep.r1Press
  else if e.R1_released then SemStep.r1Release
  else if e.R2_pressed then SemStep.r2Press e.value
  else if e.R2_released then SemStep.r2Release
  else if e.options_pressed then SemStep.optionsPress
  else if e.options_released then SemStep.optionsRelease
  else if e.left_right_arrow_released then SemStep.lrRelease
  else if e.up_down_arrow_released then SemStep.udRelease
  else if e.left_arrow_pressed then SemStep.leftPress
  else if e.right_arrow_pressed then SemStep.rightPress
  else if e.up_arrow_pressed then SemStep.upPress
  else if e.down_arrow_pressed then SemStep.downPress
  else if e.playstation_button_pressed then SemStep.psPress
  else if e.playstation_button_released then SemStep.psRelease
  else if e.share_pressed then SemStep.sharePress
  else if e.share_released then SemStep.shareRelease
  else if e.R3_pressed then SemStep.r3Press
  else if e.R3_released then SemStep.r3Release
  else if e.L3_pressed then SemStep.l3Press
  else if e.L3_released then SemStep.l3Release
  else SemStep.unrecognized

/-- Branch kind of each outcome. -/
def stepKind : SemStep → Option BranchKind
  | SemStep.r3YRest | SemStep.r3XRest | SemStep.r3XMove _ | SemStep.r3YMove _
  | SemStep.r3NoSub | SemStep.l3YRest | SemStep.l3XRest | SemStep.l3YMove _
  | SemStep.l3XMove _ | SemStep.l3NoSub => some BranchKind.stick
  | SemStep.circlePress | SemStep.xPress | SemStep.trianglePress | SemStep.squarePress
  | SemStep.l1Press | SemStep.l2Press _ | SemStep.r1Press | SemStep.r2Press _
  | SemStep.optionsPress | SemStep.leftPress | SemStep.rightPress | SemStep.upPress
  | SemStep.downPress | SemStep.psPress | SemStep.sharePress | SemStep.r3Press
  | SemStep.l3Press => some BranchKind.press
  | SemStep.circleRelease | SemStep.xRelease | SemStep.triangleRelease
  | SemStep.squareRelease | SemStep.l1Release | SemStep.l2Release | SemStep.r1Release
  | SemStep.r2Release | SemStep.optionsRelease | SemStep.lrRelease | SemStep.udRelease
  | SemStep.psRelease | SemStep.shareRelease | SemStep.r3Release | SemStep.l3Release =>
    some BranchKind.release
  | SemStep.unrecognized => none

/-- The five dispatch categories of §4.4 as field groups of the snapshot:
right-stick axes, left-stick axes, the eleven digital button flags, the
two analog triggers, and the four directional-pad flags (together all 21
fields). -/
inductive DispatchCategory where
  | rightStick
  | leftStick
  | buttons
  | triggers
  | dpad
deriving DecidableEq

/-- Dispatch category of each branch outcome: the §4.4 category whose
fields the matched branch may touch (none for an unrecognized event). -/
def stepCategory : SemStep → Option DispatchCategory
  | SemStep.r3YRest | SemStep.r3XRest | SemStep.r3XMove _ | SemStep.r3YMove _
  | SemStep.r3NoSub => some DispatchCategory.rightStick
  | SemStep.l3YRest | SemStep.l3XRest | SemStep.l3YMove _ | SemStep.l3XMove _
  | SemStep.l3NoSub => some DispatchCategory.leftStick
  | SemStep.circlePress | SemStep.circleRelease | SemStep.xPress | SemStep.xRelease
  | SemStep.trianglePress | SemStep.triangleRelease | SemStep.squarePress
  | SemStep.squareRelease | SemStep.l1Press | SemStep.l1Release | SemStep.r1Press
  | SemStep.r1Release | SemStep.optionsPress | SemStep.optionsRelease
  | SemStep.psPress | SemStep.psRelease | SemStep.sharePress | SemStep.shareRelease
  | SemStep.r3Press | SemStep.r3Release | SemStep.l3Press | SemStep.l3Release =>
    some DispatchCategory.buttons
  | SemStep.l2Press _ | SemStep.l2Release | SemStep.r2Press _ | SemStep.r2Release =>
    some DispatchCategory.triggers
  | SemStep.lrRelease | SemStep.udRelease | SemStep.leftPress | SemStep.rightPress
  | SemStep.upPress | SemStep.downPress => some DispatchCategory.dpad
  | SemStep.unrecognized => none

/-- The two right-stick axis fields agree. -/
def sameRightStick (s t : ControllerState) : Prop :=
  t.R3_x_axis = s.R3_x_axis ∧ t.R3_y_axis = s.R3_y_axis

/-- The two left-stick axis fields agree. -/
def sameLeftStick (s t : ControllerState) : Prop :=
  t.L3_x_axis = s.L3_x_axis ∧ t.L3_y_axis = s.L3_y_axis

/-- The eleven digital button flags agree. -/
def sameButtons (s t : ControllerState) : Prop :=
  t.x_button = s.x_button ∧ t.triangle_button = s.triangle_button ∧
  t.circle_button = s.circle_button ∧ t.square_button = s.square_button ∧
  t.L1_button = s.L1_button ∧ t.R1_button = s.R1_button ∧
  t.share_button = s.share_button ∧ t.options_button = s.options_button ∧
  t.playstation_button = s.playstation_button ∧ t.R3_button = s.R3_button ∧
  t.L3_button = s.L3_button

/-- The two analog trigger fields agree. -/
def sameTriggers (s t : ControllerState) : Prop :=
  t.L2_button = s.L2_button ∧ t.R2_button = s.R2_button

/-- The four directional-pad flags agree. -/
def sameDpad (s t : ControllerState) : Prop :=
  t.up_arrow = s.up_arrow ∧ t.down_arrow = s.down_arrow ∧
  t.left_arrow = s.left_arrow ∧ t.right_arrow = s.right_arrow

/-- Every snapshot field outside the given dispatch category agrees
between s and t (all 21 fields when no category matched). -/
def outsideUnchanged :
    Option DispatchCategory → ControllerState → ControllerState → Prop
  | none, s, t =>
    sameRightStick s t ∧ sameLeftStick s t ∧ sameButtons s t ∧ sameTriggers s t ∧
      sameDpad s t
  | some DispatchCategory.rightStick, s, t =>
    sameLeftStick s t ∧ sameButtons s t ∧ sameTriggers s t ∧ sameDpad s t
  | some DispatchCategory.leftStick, s, t =>
    sameRightStick s t ∧ sameButtons s t ∧ sameTriggers s t ∧ sameDpad s t
  | some DispatchCategory.buttons, s, t =>
    sameRightStick s t ∧ sameLeftStick s t ∧ sameTriggers s t ∧ sameDpad s t
  | some DispatchCategory.triggers, s, t =>
    sameRightStick s t ∧ sameLeftStick s t ∧ sameButtons s t ∧ sameDpad s t
  | some DispatchCategory.dpad, s, t =>
    sameRightStick s t ∧ sameLeftStick s t ∧ sameButtons s t ∧ sameTriggers s t

/-- Canonical events: exactly one predicate of the injected mapping answers
true (and `value` where a branch stores it), the shape the spec's
SemanticEvent variants decode to. -/
def circlePressedEv : Event := { circle_pressed := true }

def circleReleasedEv : Event := { circle_released := true }

def xReleasedEv : Event := { x_released := true }

def triangleReleasedEv : Event := { triangle_released := true }

def squareReleasedEv : Event := { square_released := true }

def L1ReleasedEv : Event := { L1_released := true }

def R1ReleasedEv : Event := { R1_released := true }

def optionsReleasedEv : Event := { options_released := true }

def psReleasedEv : Event := { playstation_button_released := true }

def shareReleasedEv : Event := { share_released := true }

def R3ReleasedEv : Event := { R3_released := true }

def L3ReleasedEv : Event := { L3_released := true }

def L2PressedEv (v : Int) : Event := { L2_pressed := true, value := v }

def R2PressedEv (v : Int) : Event := { R2_pressed := true, value := v }

def L2ReleasedEv : Event := { L2_released := true }

def R2ReleasedEv : Event := { R2_released := true }

def L3YRestEv : Event := { L3_event := true, L3_y_at_rest := true }

def L3XRestEv : Event := { L3_event := true, L3_x_at_rest := true }

def lrReleasedEv : Event := { left_right_arrow_released := true }

def udReleasedEv : Event := { up_down_arrow_released := true }

def leftPressedEv : Event := { left_arrow_pressed := true }

def rightPressedEv : Event := { right_arrow_pressed := true }

def upPressedEv : Event := { up_arrow_pressed := true }

def downPressedEv : Event := { down_arrow_pressed := true }

/-- Snapshot with only the circle flag set. -/
def sCircleOn : ControllerState := { ControllerState.init with circle_button := true }

/-- Snapshot with only the right arrow flag set. -/
def sRightOnly : ControllerState := { ControllerState.init with right_arrow := true }

/-- The elif chain of `_handle_event` is the composition of branch
selection and branch effect. -/
theorem decodeStep_spec (e : Event) (s : ControllerState) :
    handle_event e s = applyStep (decodeStep e) s := by
  unfold handle_event decodeStep
  by_cases h01 : e.R3_event = true
  · rw [if_pos h01, if_pos h01]
    split_ifs <;> rfl
  rw [if_neg h01, if_neg h01]
  by_cases h02 : e.L3_event = true
  · rw [if_pos h02, if_pos h02]
    split_ifs <;> rfl
  rw [if_neg h02, if_neg h02]
  by_cases h03 : e.circle_pressed = true
  · rw [if_pos h03, if_pos h03]
    rfl
  rw [if_neg h03, if_neg h03]
  by_cases h04 : e.circle_released = true
  · rw [if_pos h04, if_pos h04]
    rfl
  rw [if_neg h04, if_neg h04]
  by_cases h05 : e.x_pressed = true
  · rw [if_pos h05, if_pos h05]
    rfl
  rw [if_neg h05, if_neg h05]
  by_cases h06 : e.x_released = true
  · rw [if_pos h06, if_pos h06]
    rfl
  rw [if_neg h06, if_neg h06]
  by_cases h07 : e.triangle_pressed = true
  · rw [if_pos h07, if_pos h07]
    rfl
  rw [if_neg h07, if_neg h07]
  by_cases h08 : e.triangle_released = true
  · rw [if_pos h08, if_pos h08]
    rfl
  rw [if_neg h08, if_neg h08]
  by_cases h09 : e.square_pressed = true
  · rw [if_pos h09, if_pos h09]
    rfl
  rw [if_neg h09, if_neg h09]
  by_cases h10 : e.square_released = true
  · rw [if_pos h10, if_pos h10]
    rfl
  rw [if_neg h10, if_neg h10]
  by_cases h11 : e.L1_pressed = true
  · rw [if_pos h11, if_pos h11]
    rfl
  rw [if_neg h11, if_neg h11]
  by_cases h12 : e.L1_released = true
  · rw [if_pos h12, if_pos h12]
    rfl
  rw [if_neg h12, if_neg h12]
  by_cases h13 : e.L2_pressed = true
  · rw [if_pos h13, if_pos h13]
    rfl
  rw [if_neg h13, if_neg h13]
  by_cases h14 : e.L2_released = true
  · rw [if_pos h14, if_pos h14]
    rfl
  rw [if_neg h14, if_neg h14]
  by_cases h15 : e.R1_pressed = true
  · rw [if_pos h15, if_pos h15]
    rfl
  rw [if_neg h15, if_neg h15]
  by_cases h16 : e.R1_released = true
  · rw [if_pos h16, if_pos h16]
    rfl
  rw [if_neg h16, if_neg h16]
  by_cases h17 : e.R2_pressed = true
  · rw [if_pos h17, if_pos h17]
    rfl
  rw [if_neg h17, if_neg h17]
  by_cases h18 : e.R2_released = true
  · rw [if_pos h18, if_pos h18]
    rfl
  rw [if_neg h18, if_neg h18]
  by_cases h19 : e.options_pressed = true
  · rw [if_pos h19, if_pos h19]
    rfl
  rw [if_neg h19, if_neg h19]
  by_cases h20 : e.options_released = true
  · rw [if_pos h20, if_pos h20]
    rfl
  rw [if_neg h20, if_neg h20]
  by_cases h21 : e.left_right_arrow_released = true
  · rw [if_pos h21, if_pos h21]
    rfl
  rw [if_neg h21, if_neg h21]
  by_cases h22 : e.up_down_arrow_released = true
  · rw [if_pos h22, if_pos h22]
    rfl
  rw [if_neg h22, if_neg h22]
  by_cases h23 : e.left_arrow_pressed = true
  · rw [if_pos h23, if_pos h23]
    rfl
  rw [if_neg h23, if_neg h23]
  by_cases h24 : e.right_arrow_pressed = true
  · rw [if_pos h24, if_pos h24]
    rfl
  rw [if_neg h24, if_neg h24]
  by_cases h25 : e.up_arrow_pressed = true
  · rw [if_pos h25, if_pos h25]
    rfl
  rw [if_neg h25, if_neg h25]
  by_cases h26 : e.down_arrow_pressed = true
  · rw [if_pos h26, if_pos h26]
    rfl
  rw [if_neg h26, if_neg h26]
  by_cases h27 : e.playstation_button_pressed = true
  · rw [if_pos h27, if_pos h27]
    rfl
  rw [if_neg h27, if_neg h27]
  by_cases h28 : e.playstation_button_released = true
  · rw [if_pos h28, if_pos h28]
    rfl
  rw [if_neg h28, if_neg h28]
  by_cases h29 : e.share_pressed = true
  · rw [if_pos h29, if_pos h29]
    rfl
  rw [if_neg h29, if_neg h29]
  by_cases h30 : e.share_released = true
  · rw [if_pos h30, if_pos h30]
    rfl
  rw [if_neg h30, if_neg h30]
  by_cases h31 : e.R3_pressed = true
  · rw [if_pos h31, if_pos h31]
    rfl
  rw [if_neg h31, if_neg h31]
  by_cases h32 : e.R3_released = true
  · rw [if_pos h32, if_pos h32]
    rfl
  rw [if_neg h32, if_neg h32]
  by_cases h33 : e.L3_pressed = true
  · rw [if_pos h33, if_pos h33]
    rfl
  rw [if_neg h33, if_neg h33]
  by_cases h34 : e.L3_released = true
  · rw [if_pos h34, if_pos h34]
    rfl
  rw [if_neg h34, if_neg h34]
  rfl

/-- C4: for every starting snapshot, an R2-released event leaves
R2_button = -32767 and an L2-released event leaves L2_button = -32767 (the
trigger-rest sentinel, never 0), while L2-pressed / R2-pressed store the
event's raw value in the corresponding trigger field. -/
theorem C4_trigger_values (s : ControllerState) (v : Int) :
    (handle_event R2ReleasedEv s).1.R2_button = -32767 ∧
    (handle_event L2ReleasedEv s).1.L2_button = -32767 ∧
    (handle_event (L2PressedEv v) s).1.L2_button = v ∧
    (handle_event (R2PressedEv v) s).1.R2_button = v := by
  refine ⟨?_, ?_, ?_, ?_⟩ <;>
    simp [handle_event, R2ReleasedEv, L2ReleasedEv, L2PressedEv, R2PressedEv]

/-- C5: for every starting snapshot, an L3-y-at-rest event zeroes L3_y_axis
and leaves L3_x_axis unchanged, and an L3-x-at-rest event zeroes L3_x_axis
and leaves L3_y_axis unchanged. -/
theorem C5_stick_rest (s : ControllerState) :
    (handle_event L3YRestEv s).1.L3_y_axis = 0 ∧
    (handle_event L3YRestEv s).1.L3_x_axis = s.L3_x_axis ∧
    (handle_event L3XRestEv s).1.L3_x_axis = 0 ∧
    (handle_event L3XRestEv s).1.L3_y_axis = s.L3_y_axis := by
  refine ⟨?_, ?_, ?_, ?_⟩ <;> simp [handle_event, L3YRestEv, L3XRestEv]

/-- C8: for every snapshot in which a digital button's flag is already
false, the released-event for that button leaves the snapshot (and the
history) completely unchanged, for each of the eleven digital buttons. -/
theorem C8_release_idempotent (s : ControllerState) :
    (s.circle_button = false → handle_event circleReleasedEv s = (s, [])) ∧
    (s.x_button = false → handle_event xReleasedEv s = (s, [])) ∧
    (s.triangle_button = false → handle_event triangleReleasedEv s = (s, [])) ∧
    (s.square_button = false → handle_event squareReleasedEv s = (s, [])) ∧
    (s.L1_button = false → handle_event L1ReleasedEv s = (s, [])) ∧
    (s.R1_button = false → handle_event R1ReleasedEv s = (s, [])) ∧
    (s.options_button = false → handle_event optionsReleasedEv s = (s, [])) ∧
    (s.playstation_button = false → handle_event psReleasedEv s = (s, [])) ∧
    (s.share_button = false → handle_event shareReleasedEv s = (s, [])) ∧
    (s.R3_button = false → handle_event R3ReleasedEv s = (s, [])) ∧
    (s.L3_button = false → handle_event L3ReleasedEv s = (s, [])) := by
  cases s
  refine ⟨?_, ?_, ?_, ?_, ?_, ?_, ?_, ?_, ?_, ?_, ?_⟩ <;> intro h <;>
    simp_all [handle_event, circleReleasedEv, xReleasedEv, triangleReleasedEv,
      squareReleasedEv, L1ReleasedEv, R1ReleasedEv, optionsReleasedEv, psReleasedEv,
      shareReleasedEv, R3ReleasedEv, L3ReleasedEv]

/-- Witness for C8: on the initial snapshot every digital button flag is
false and each released-event is a no-op. -/
theorem C8_release_idempotent_witness :
    ControllerState.init.circle_button = false ∧
    handle_event circleReleasedEv ControllerState.init = (ControllerState.init, []) ∧
    handle_event xReleasedEv ControllerState.init = (ControllerState.init, []) ∧
    handle_event triangleReleasedEv ControllerState.init = (ControllerState.init, []) ∧
    handle_event squareReleasedEv ControllerState.init = (ControllerState.init, []) ∧
    handle_event L1ReleasedEv ControllerState.init = (ControllerState.init, []) ∧
    handle_event R1ReleasedEv ControllerState.init = (ControllerState.init, []) ∧
    handle_event optionsReleasedEv ControllerState.init = (ControllerState.init, []) ∧
    handle_event psReleasedEv ControllerState.init = (ControllerState.init, []) ∧
    handle_event shareReleasedEv ControllerState.init = (ControllerState.init, []) ∧
    handle_event R3ReleasedEv ControllerState.init = (ControllerState.init, []) ∧
    handle_event L3ReleasedEv ControllerState.init = (ControllerState.init, []) := by
  obtain ⟨h1, h2, h3, h4, h5, h6, h7, h8, h9, h10, h11⟩ :=
    C8_release_idempotent ControllerState.init
  exact ⟨rfl, h1 rfl, h2 rfl, h3 rfl, h4 rfl, h5 rfl, h6 rfl, h7 rfl, h8 rfl,
    h9 rfl, h10 rfl, h11 rfl⟩

/-- Counterexample to C2 as stated: a circle-released event from a snapshot
with the circle flag set is a recognized transition that sets a snapshot
field (the resulting snapshot differs), yet it appends no label at all —
not exactly one. -/
theorem C2_counterexample :
    (handle_event circleReleasedEv sCircleOn).1 ≠ sCircleOn ∧
    (handle_event circleReleasedEv sCircleOn).2 = [] := by
  decide

/-- Every branch of the elif chain that turns a direction flag from true
to false is one of the two combined-release branches, which clear the
other flag of the same axis as well: no event clears a single direction
flag individually. -/
theorem arrow_clears_are_joint (e : Event) (s : ControllerState) :
    (s.left_arrow = true → (handle_event e s).1.left_arrow = false →
      (handle_event e s).1.right_arrow = false) ∧
    (s.right_arrow = true → (handle_event e s).1.right_arrow = false →
      (handle_event e s).1.left_arrow = false) ∧
    (s.up_arrow = true → (handle_event e s).1.up_arrow = false →
      (handle_event e s).1.down_arrow = false) ∧
    (s.down_arrow = true → (handle_event e s).1.down_arrow = false →
      (handle_event e s).1.up_arrow = false) := by
  simp only [decodeStep_spec]
  generalize decodeStep e = st
  refine ⟨?_, ?_, ?_, ?_⟩ <;> intro hs hl <;> cases st <;> simp_all [applyStep]

/-- C3: the combined left+right released event clears both horizontal
flags from every starting snapshot (in particular when only one of them
was set), the combined up+down released event clears both vertical flags,
each individual direction-pressed event sets exactly its own flag and
nothing else, and no event at all clears a single direction flag without
also clearing the other flag of its axis. -/
theorem C3_dpad (e : Event) (s : ControllerState) :
    (handle_event lrReleasedEv s).1.left_arrow = false ∧
    (handle_event lrReleasedEv s).1.right_arrow = false ∧
    (handle_event udReleasedEv s).1.up_arrow = false ∧
    (handle_event udReleasedEv s).1.down_arrow = false ∧
    handle_event leftPressedEv s = ({ s with left_arrow := true }, ["left"]) ∧
    handle_event rightPressedEv s = ({ s with right_arrow := true }, ["right"]) ∧
    handle_event upPressedEv s = ({ s with up_arrow := true }, ["up"]) ∧
    handle_event downPressedEv s = ({ s with down_arrow := true }, ["down"]) ∧
    (s.left_arrow = true → (handle_event e s).1.left_arrow = false →
      (handle_event e s).1.right_arrow = false) ∧
    (s.right_arrow = true → (handle_event e s).1.right_arrow = false →
      (handle_event e s).1.left_arrow = false) ∧
    (s.up_arrow = true → (handle_event e s).1.up_arrow = false →
      (handle_event e s).1.down_arrow = false) ∧
    (s.down_arrow = true → (handle_event e s).1.down_arrow = false →
      (handle_event e s).1.up_arrow = false) := by
  have hj := arrow_clears_are_joint e s
  refine ⟨?_, ?_, ?_, ?_, ?_, ?_, ?_, ?_, hj.1, hj.2.1, hj.2.2.1, hj.2.2.2⟩ <;>
    simp [handle_event, lrReleasedEv, udReleasedEv, leftPressedEv, rightPressedEv,
      upPressedEv, downPressedEv]

/-- Witness for C3: from the snapshot where only the right arrow is set,
the combined left+right release clears right, and the theorem's joint-clear
clause then forces left to be false as well. -/
theorem C3_dpad_witness :
    sRightOnly.right_arrow = true ∧
    (handle_event lrReleasedEv sRightOnly).1.right_arrow = false ∧
    (handle_event lrReleasedEv sRightOnly).1.left_arrow = false := by
  obtain ⟨-, -, -, -, -, -, -, -, -, hR, -, -⟩ := C3_dpad lrReleasedEv sRightOnly
  exact ⟨rfl, by decide, hR rfl (by decide)⟩

/-- C10: for every processed event, every snapshot field outside the
single dispatch category that matched is left unchanged (all fields when
nothing matched); and the event writes at most one field, except the
combined arrow releases, which produce exactly the snapshot with the two
flags of their axis cleared and nothing else. -/
theorem C10_frame (e : Event) (s : ControllerState) :
    outsideUnchanged (stepCategory (decodeStep e)) s (handle_event e s).1 ∧
    (diffCount s (handle_event e s).1 ≤ 1 ∨
      (handle_event e s).1 = { s with left_arrow := false, right_arrow := false } ∨
      (handle_event e s).1 = { s with up_arrow := false, down_arrow := false }) := by
  simp only [decodeStep_spec]
  generalize decodeStep e = st
  constructor
  · cases st <;>
      simp [applyStep, stepCategory, outsideUnchanged, sameRightStick, sameLeftStick,
        sameButtons, sameTriggers, sameDpad]
  · cases st <;>
      first
        | (right; left; rfl)
        | (right; right; rfl)
        | (left; simp [applyStep, diffCount]; done)
        | (left; simp [applyStep, diffCount]; split_ifs <;> simp)

/-- C2, amended to the code: every event appends at most one label; an
event matching no branch appends nothing and leaves the snapshot
unchanged; an event whose first matching branch is released-type appends
nothing even though it writes its field(s); an event whose first matching
branch is a stick branch or a pressed-type branch appends exactly one
label (stick branches do so even when they change no field). -/
theorem C2_labels_amended (e : Event) (s : ControllerState) :
    (handle_event e s).2.length ≤ 1 ∧
    (stepKind (decodeStep e) = none → handle_event e s = (s, [])) ∧
    (stepKind (decodeStep e) = some BranchKind.release → (handle_event e s).2 = []) ∧
    ((stepKind (decodeStep e) = some BranchKind.stick ∨
      stepKind (decodeStep e) = some BranchKind.press) →
      (handle_event e s).2.length = 1) := by
  simp only [decodeStep_spec]
  generalize decodeStep e = st
  cases st <;> simp [applyStep, stepKind]

/-- Witness for C2's amended statement: the circle-released event matches a
released-type branch and indeed appends nothing. -/
theorem C2_labels_amended_witness :
    stepKind (decodeStep circleReleasedEv) = some BranchKind.release ∧
    (handle_event circleReleasedEv sCircleOn).2 = [] := by
  have h := C2_labels_amended circleReleasedEv sCircleOn
  exact ⟨by decide, h.2.2.1 (by decide)⟩

/-- Each event appends at most one label, and any appended label belongs to
exactly one of the five §4.4 dispatch categories. -/
theorem handle_event_labels (e : Event) (s : ControllerState) :
    (handle_event e s).2.length ≤ 1 ∧
    ∀ l ∈ (handle_event e s).2, categoryCount l = 1 := by
  rw [decodeStep_spec]
  generalize decodeStep e = st
  cases st <;> simp [applyStep] <;> decide

/-- Pipeline runs append at most one label per record, all labels from the
category lists. -/
theorem runPipeline_labels (events : List Event) (s : ControllerState) :
    (runPipeline events s).2.length ≤ events.length ∧
    ∀ l ∈ (runPipeline events s).2, categoryCount l = 1 := by
  induction events generalizing s with
  | nil => simp [runPipeline]
  | cons e es ih =>
    have h1 := handle_event_labels e s
    have h2 := ih (handle_event e s).1
    constructor
    · simp only [runPipeline, List.length_append, List.length_cons]
      omega
    · intro l hl
      simp only [runPipeline, List.mem_append] at hl
      rcases hl with h | h
      · exact h1.2 l h
      · exact h2.2 l h

/-- C7: for every sequence of classified records processed from the initial
state, the history is at most as long as the record sequence, and every
appended label lies in exactly one of the five ordered dispatch categories
of §4.4. -/
theorem C7_history_invariant (events : List Event) :
    (runPipeline events ControllerState.init).2.length ≤ events.length ∧
    ∀ l ∈ (runPipeline events ControllerState.init).2, categoryCount l = 1 :=
  runPipeline_labels events ControllerState.init

/-- Witness for C7: one circle-pressed record appends the label "circle",
which lies in exactly one category. -/
theorem C7_history_invariant_witness :
    (runPipeline [circlePressedEv] ControllerState.init).2.length ≤ 1 ∧
    "circle" ∈ (runPipeline [circlePressedEv] ControllerState.init).2 ∧
    categoryCount "circle" = 1 := by
  have h := C7_history_invariant [circlePressedEv]
  exact ⟨h.1, by decide, h.2 "circle" (by decide)⟩

/-- The read loop never clears is_connected and always has the device file
open, whatever the stream holds. -/
theorem listenLoop_connected_opened (classify : RawFields → Event)
    (chunks : List (List Int)) (st : ControllerState) (hist : List String)
    (puts : Nat) (tr : List Action) :
    (listenLoop classify chunks st hist puts tr).is_connected = true ∧
    (listenLoop classify chunks st hist puts tr).opened = true := by
  induction chunks generalizing st hist puts tr with
  | nil => simp [listenLoop]
  | cons c rest ih =>
    simp only [listenLoop]
    split_ifs <;> simp [ih]

/-- On a stream of full records the read loop processes every record in
order, exits cleanly at end-of-stream, signals once per record right after
applying it, and leaves the connected flag true. -/
theorem listenLoop_full (classify : RawFields → Event) (full : List (List Int))
    (h : ∀ c ∈ full, c.length = event_size) (st : ControllerState)
    (hist : List String) (puts : Nat) (tr : List Action) :
    listenLoop classify full st hist puts tr =
      { state := (runPipeline (pipelineEvents classify full) st).1,
        history := hist ++ (runPipeline (pipelineEvents classify full) st).2,
        puts := puts + full.length,
        is_connected := true, opened := true,
        trace := tr.reverse ++ (pipelineEvents classify full).flatMap
          (fun e => [Action.applied e, Action.signaled]),
        exit := ListenExit.cleanEOF } := by
  induction full generalizing st hist puts tr with
  | nil => simp [listenLoop, pipelineEvents, runPipeline]
  | cons c rest ih =>
    have hc : c.length = event_size := h c (List.mem_cons_self c rest)
    have hrest : ∀ x ∈ rest, x.length = event_size := fun x hx =>
      h x (List.mem_cons_of_mem c hx)
    simp only [listenLoop, hc]
    rw [if_neg (by decide), if_neg (by simp)]
    rw [ih hrest]
    simp [pipelineEvents, runPipeline, List.append_assoc, Nat.add_assoc, Nat.add_comm]
    omega

/-- A stream of full records followed by a torn (nonzero, short) read makes
struct.unpack raise: the loop ends with the propagating error. -/
theorem listenLoop_full_torn (classify : RawFields → Event) (full : List (List Int))
    (torn : List Int) (h : ∀ c ∈ full, c.length = event_size)
    (ht0 : torn.length ≠ 0) (ht8 : torn.length ≠ event_size) (st : ControllerState)
    (hist : List String) (puts : Nat) (tr : List Action) :
    (listenLoop classify (full ++ [torn]) st hist puts tr).exit =
      ListenExit.unpackError := by
  induction full generalizing st hist puts tr with
  | nil =>
    simp only [List.nil_append, listenLoop]
    rw [if_neg ht0, if_pos ht8]
  | cons c rest ih =>
    have hc : c.length = event_size := h c (List.mem_cons_self c rest)
    have hrest : ∀ x ∈ rest, x.length = event_size := fun x hx =>
      h x (List.mem_cons_of_mem c hx)
    simp only [List.cons_append, listenLoop, hc]
    rw [if_neg (by decide), if_neg (by simp)]
    exact ih hrest _ _ _ _

/-- One signal per applied event in the apply/signal trace shape. -/
theorem count_signaled_flatMap (evs : List Event) :
    (evs.flatMap fun e => [Action.applied e, Action.signaled]).count Action.signaled =
      evs.length := by
  induction evs with
  | nil => simp
  | cons e es ih => simp [List.flatMap_cons, List.count_cons, List.count_append, ih]

/-- C9: over any stream of full records (the records the pipeline
processes), the update queue is signalled exactly once per processed
record — the trace is precisely apply-then-signal for each record in
order, so each signal comes after that record's event was applied and
never once per mutated field. -/
theorem C9_one_signal_per_record (classify : RawFields → Event) (existsAt : Nat → Bool)
    (timeout : Nat) (full : List (List Int))
    (hconn : waitForInterface existsAt timeout = true)
    (h : ∀ c ∈ full, c.length = event_size) :
    (listen classify existsAt timeout full).puts = full.length ∧
    (listen classify existsAt timeout full).trace =
      (pipelineEvents classify full).flatMap
        (fun e => [Action.applied e, Action.signaled]) ∧
    (listen classify existsAt timeout full).trace.count Action.signaled =
      full.length := by
  unfold listen
  rw [if_pos hconn, listenLoop_full classify full h]
  refine ⟨by simp, by simp, ?_⟩
  simp only [List.reverse_nil, List.nil_append]
  rw [count_signaled_flatMap]
  simp [pipelineEvents]

/-- Witness for C9: one full record gives exactly one queue signal, right
after its apply step. -/
theorem C9_one_signal_per_record_witness :
    waitForInterface (fun _ => true) 1 = true ∧
    (∀ c ∈ ([[0, 0, 0, 0, 0, 0, 0, 0]] : List (List Int)), c.length = event_size) ∧
    (listen (fun _ => ({} : Event)) (fun _ => true) 1 [[0, 0, 0, 0, 0, 0, 0, 0]]).puts = 1 := by
  have h := C9_one_signal_per_record (fun _ => ({} : Event)) (fun _ => true) 1
      [[0, 0, 0, 0, 0, 0, 0, 0]] (by decide) (by decide)
  exact ⟨by decide, by decide, h.1⟩

/-- The for-loop of wait_for_interface starting at poll i with n attempts
left succeeds iff one of those n polls sees the path. -/
theorem waitForInterfaceFrom_eq_true (existsAt : Nat → Bool) (n : Nat) :
    ∀ i, (waitForInterfaceFrom existsAt i n = true ↔
      ∃ j, j < n ∧ existsAt (i + j) = true) := by
  induction n with
  | zero => intro i; simp [waitForInterfaceFrom]
  | succ m ih =>
    intro i
    rw [waitForInterfaceFrom]
    by_cases hx : existsAt i = true
    · rw [if_pos hx]
      simp only [true_iff]
      exact ⟨0, Nat.succ_pos m, by simpa using hx⟩
    · rw [if_neg hx, ih (i + 1)]
      constructor
      · rintro ⟨j, hj, he⟩
        exact ⟨j + 1, by omega, by rwa [show i + (j + 1) = i + 1 + j by omega]⟩
      · rintro ⟨j, hj, he⟩
        cases j with
        | zero => exact absurd (by simpa using he) hx
        | succ k => exact ⟨k, by omega, by rwa [show i + 1 + k = i + (k + 1) by omega]⟩

/-- C6: the default poll budget is 30; the gate succeeds iff the path
exists on one of the polls 0 .. timeout-1 (in particular when it first
appears exactly on the last permitted poll); on success with a record
stream the engine runs connected with the device open; and when every
permitted poll fails, listen returns immediately with connected false, the
device never opened, zero records processed and zero signals. -/
theorem C6_liveness_gate (existsAt : Nat → Bool) (timeout : Nat)
    (classify : RawFields → Event) (chunks : List (List Int)) :
    defaultTimeout = 30 ∧
    (waitForInterface existsAt timeout = true ↔
      ∃ i, i < timeout ∧ existsAt i = true) ∧
    (0 < timeout → existsAt (timeout - 1) = true →
      waitForInterface existsAt timeout = true) ∧
    (waitForInterface existsAt timeout = true →
      (listen classify existsAt timeout chunks).is_connected = true ∧
      (listen classify existsAt timeout chunks).opened = true) ∧
    ((∀ i, i < timeout → existsAt i = false) →
      listen classify existsAt timeout chunks =
        { state := ControllerState.init, history := [], puts := 0,
          is_connected := false, opened := false, trace := [],
          exit := ListenExit.notConnected }) := by
  have hiff : waitForInterface existsAt timeout = true ↔
      ∃ i, i < timeout ∧ existsAt i = true := by
    rw [waitForInterface, waitForInterfaceFrom_eq_true existsAt timeout 0]
    simp
  refine ⟨rfl, hiff, ?_, ?_, ?_⟩
  · intro hpos hlast
    exact hiff.mpr ⟨timeout - 1, by omega, hlast⟩
  · intro hconn
    unfold listen
    rw [if_pos hconn]
    exact listenLoop_connected_opened classify chunks _ _ _ _
  · intro hnone
    have hfalse : waitForInterface existsAt timeout ≠ true := by
      intro htrue
      obtain ⟨i, hi, he⟩ := hiff.mp htrue
      rw [hnone i hi] at he
      exact Bool.false_ne_true he
    unfold listen
    rw [if_neg hfalse]

/-- Witness for C6: with timeout 2, a path appearing exactly on the second
(last) poll makes the gate succeed, and a path that never appears makes
listen fail with connected false and nothing read. -/
theorem C6_liveness_gate_witness :
    (0 < 2 ∧ (fun i => decide (i = 1)) 1 = true ∧
      waitForInterface (fun i => decide (i = 1)) 2 = true) ∧
    ((∀ i, i < 2 → (fun _ => false) i = false) ∧
      listen (fun _ => ({} : Event)) (fun _ => false) 2 [[0, 0, 0, 0, 0, 0, 0, 0]] =
        { state := ControllerState.init, history := [], puts := 0,
          is_connected := false, opened := false, trace := [],
          exit := ListenExit.notConnected }) := by
  have h1 := C6_liveness_gate (fun i => decide (i = 1)) 2 (fun _ => ({} : Event))
      [[0, 0, 0, 0, 0, 0, 0, 0]]
  have h2 := C6_liveness_gate (fun _ => false) 2 (fun _ => ({} : Event))
      [[0, 0, 0, 0, 0, 0, 0, 0]]
  exact ⟨⟨by decide, by decide, h1.2.2.1 (by decide) (by decide)⟩,
    ⟨fun i _ => rfl, h2.2.2.2.2 (fun i _ => rfl)⟩⟩

/-- Counterexample to C1 as stated: with the device present, an immediate
end-of-stream (zero-byte read) terminates the loop cleanly but the
connected flag is still true when the pipeline exits — the disconnect
callback never ran — and a torn 3-byte read ends the pipeline with a
propagating unpack error rather than a clean exit. -/
theorem C1_counterexample :
    (listen (fun _ => ({} : Event)) (fun _ => true) 30 []).exit = ListenExit.cleanEOF ∧
    (listen (fun _ => ({} : Event)) (fun _ => true) 30 []).is_connected = true ∧
    (listen (fun _ => ({} : Event)) (fun _ => true) 30 [[0, 0, 0]]).exit =
      ListenExit.unpackError := by
  decide

/-- C1, amended to the code: a zero-byte read terminates the read loop
cleanly with no exception and all prior full records processed, but the
connected flag remains true on exit (it is flipped false only by liveness
failure or KeyboardInterrupt); a torn nonzero read of fewer than
event_size bytes instead raises struct.error, which propagates out of the
loop uncaught, again with the connected flag left true. -/
theorem C1_short_read_amended (classify : RawFields → Event) (existsAt : Nat → Bool)
    (timeout : Nat) (full : List (List Int)) (torn : List Int)
    (hconn : waitForInterface existsAt timeout = true)
    (hfull : ∀ c ∈ full, c.length = event_size)
    (ht0 : torn.length ≠ 0) (ht8 : torn.length ≠ event_size) :
    (listen classify existsAt timeout full).exit = ListenExit.cleanEOF ∧
    (listen classify existsAt timeout full).is_connected = true ∧
    (listen classify existsAt timeout full).puts = full.length ∧
    (listen classify existsAt timeout (full ++ [torn])).exit =
      ListenExit.unpackError ∧
    (listen classify existsAt timeout (full ++ [torn])).is_connected = true := by
  unfold listen
  rw [if_pos hconn, if_pos hconn, listenLoop_full classify full hfull]
  refine ⟨rfl, rfl, by simp, ?_, ?_⟩
  · exact listenLoop_full_torn classify full torn hfull ht0 ht8 _ _ _ _
  · exact (listenLoop_connected_opened classify (full ++ [torn]) _ _ _ _).1

/-- Witness for C1's amended statement: one full record then end-of-stream
exits cleanly with connected still true; appending a 3-byte torn read ends
in the propagating unpack error. -/
theorem C1_short_read_amended_witness :
    waitForInterface (fun _ => true) 30 = true ∧
    (∀ c ∈ ([[0, 0, 0, 0, 0, 0, 0, 0]] : List (List Int)), c.length = event_size) ∧
    (([0, 0, 0] : List Int).length ≠ 0) ∧
    (([0, 0, 0] : List Int).length ≠ event_size) ∧
    (listen (fun _ => ({} : Event)) (fun _ => true) 30
      [[0, 0, 0, 0, 0, 0, 0, 0]]).is_connected = true ∧
    (listen (fun _ => ({} : Event)) (fun _ => true) 30
      ([[0, 0, 0, 0, 0, 0, 0, 0]] ++ [[0, 0, 0]])).exit = ListenExit.unpackError := by
  have h := C1_short_read_amended (fun _ => ({} : Event)) (fun _ => true) 30
      [[0, 0, 0, 0, 0, 0, 0, 0]] [0, 0, 0] (by decide) (by decide) (by decide) (by decide)
  exact ⟨by decide, by decide, by decide, by decide, h.2.1, h.2.2.2.1⟩

end PS4
